import Mathlib

/-!
Verification of the git-keeper submission synchronization engine.

This file shallowly embeds the synchronization and polling logic of the
git-keeper repository (gkeepclient/fetch_submissions.py,
gkeepcore/faculty.py, gkeepgui/class_information.py, and the server
response poller) and proves the specified properties about it.

The git transport (`git_clone_remote`, `git_pull`, `git_head_hash`,
`is_non_bare_repo`) and the filesystem (`os.path.isdir`) are external
collaborators: they are modelled by explicit state and behaviour records
passed to the embedded functions, so that every embedded function is a
pure, executable Lean function.
-/

namespace GitKeeper

/-- An exception raised by a git transport operation (`GkeepException` in
gkeepcore); it carries a human-readable message. -/
structure GkeepException where
  msg : String
  deriving Repr, DecidableEq

/-- Equality of `Except` values is decidable when it is on both sides. -/
instance {ε α : Type} [DecidableEq ε] [DecidableEq α] :
    DecidableEq (Except ε α)
  | .ok a, .ok b =>
    if h : a = b then .isTrue (by rw [h])
    else .isFalse (by intro hc; cases hc; exact h rfl)
  | .ok _, .error _ => .isFalse (by intro hc; cases hc)
  | .error _, .ok _ => .isFalse (by intro hc; cases hc)
  | .error d, .error e =>
    if h : d = e then .isTrue (by rw [h])
    else .isFalse (by intro hc; cases hc; exact h rfl)

/-- The observable local filesystem state at one target path, as queried by
`fetch_student_submission` and `pull_repo_if_updated`:
`isDir` is the result of `os.path.isdir(path)`, `isNonBareRepo` the result
of `is_non_bare_repo(path)`, and `headHash` the result of
`git_head_hash(path)` (which may raise a `GkeepException`). -/
structure RepoState where
  isDir : Bool
  isNonBareRepo : Bool
  headHash : Except GkeepException String
  deriving Repr, DecidableEq

/-- The behaviour of the external git transport for one target in one run:
the result of `git_clone_remote` and of `git_pull` at that target, were
they to be invoked. -/
structure TransportBehavior where
  cloneResult : Except GkeepException Unit
  pullResult : Except GkeepException Unit
  deriving Repr, DecidableEq

/-- A mutating transport call issued by the engine: `git_clone_remote(url,
path)` or `git_pull(path, url)`. -/
inductive TransportCall : Type where
  | clone (remote_url local_repo_path : String)
  | pull (local_repo_path remote_url : String)
  deriving Repr, DecidableEq

/-- The outcome the engine records for one target.  The source reports
outcomes by printing; each distinct message corresponds to one
constructor: `cloned`/`pulled` for the success prints, `cloneFailed`/
`pullFailed` for the error prints inside the `except` blocks, `notRepo`
for the "exists but is not a git repository" print, `readError` for the
"Error reading local git repository" print, and `noOp` for the silent
early return when the hashes match. -/
inductive SyncOutcome : Type where
  | cloned
  | cloneFailed (e : GkeepException)
  | notRepo
  | readError (e : GkeepException)
  | noOp
  | pulled
  | pullFailed (e : GkeepException)
  deriving Repr, DecidableEq

/-- `True` for the outcomes recorded from a transport error during a clone
or a pull (`Failed` in the spec's taxonomy). -/
def SyncOutcome.isFailed : SyncOutcome → Bool
  | .cloneFailed _ => true
  | .pullFailed _ => true
  | _ => false

/-- Embedding of `clone_repo(local_repo_path, remote_url)` from
gkeepclient/fetch_submissions.py: issue `git_clone_remote`, record
`cloned` on success and `cloneFailed` when the transport raises (the
`except GkeepException` branch prints the error and returns). -/
def clone_repo (t : TransportBehavior) (local_repo_path remote_url : String) :
    SyncOutcome × List TransportCall :=
  (match t.cloneResult with
   | .ok _ => .cloned
   | .error e => .cloneFailed e,
   [.clone remote_url local_repo_path])

/-- Embedding of `pull_repo_if_updated(local_repo_path, remote_url,
remote_head_hash)` from gkeepclient/fetch_submissions.py: return without
a pull if the path is not a non-bare repository, or if `git_head_hash`
raises, or if the local HEAD hash equals `remote_head_hash`; otherwise
issue `git_pull`, recording `pullFailed` if it raises. -/
def pull_repo_if_updated (s : RepoState) (t : TransportBehavior)
    (local_repo_path remote_url remote_head_hash : String) :
    SyncOutcome × List TransportCall :=
  if ¬ s.isNonBareRepo then
    (.notRepo, [])
  else
    match s.headHash with
    | .error e => (.readError e, [])
    | .ok local_head_hash =>
      if local_head_hash = remote_head_hash then
        (.noOp, [])
      else
        (match t.pullResult with
         | .ok _ => .pulled
         | .error e => .pullFailed e,
         [.pull local_repo_path remote_url])

/-- Embedding of the dispatch at the end of `fetch_student_submission` in
gkeepclient/fetch_submissions.py: pull if the submission directory already
exists (`os.path.isdir`), clone otherwise. -/
def fetch_student_submission (s : RepoState) (t : TransportBehavior)
    (remote_head_hash remote_git_url student_submission_path : String) :
    SyncOutcome × List TransportCall :=
  if s.isDir then
    pull_repo_if_updated s t student_submission_path remote_git_url
      remote_head_hash
  else
    clone_repo t student_submission_path remote_git_url

/-- Git semantics assumed of the external transport, used to relate two
successive runs: a successful clone or pull from a remote whose HEAD is
`remote_head_hash` leaves a non-bare local repository whose HEAD hash is
`remote_head_hash`; a failed clone creates no directory; a failed pull,
a skip, or a no-op leaves the local state unchanged. -/
def applyOutcome (s : RepoState) (remote_head_hash : String) :
    SyncOutcome → RepoState
  | .cloned => ⟨true, true, .ok remote_head_hash⟩
  | .pulled => { s with headHash := .ok remote_head_hash }
  | _ => s

/-- One pass of the engine over a single target followed by the resulting
local state: what a second invocation of `fetch_student_submission` on the
same target would observe. -/
def runTarget (s : RepoState) (t : TransportBehavior)
    (remote_head_hash remote_git_url student_submission_path : String) :
    SyncOutcome × List TransportCall × RepoState :=
  let (o, cs) := fetch_student_submission s t remote_head_hash
    remote_git_url student_submission_path
  (o, cs, applyOutcome s remote_head_hash o)

/-- One target of a synchronization batch: the observed local state, the
transport behaviour at that target, the remote HEAD hash from the server's
snapshot, the clone URL, and the local submission path. -/
structure SyncTarget where
  localState : RepoState
  transport : TransportBehavior
  remoteHash : String
  remoteUrl : String
  localPath : String
  deriving Repr, DecidableEq

/-- The outcome `fetch_student_submission` records for one target. -/
def SyncTarget.outcome (tg : SyncTarget) : SyncOutcome :=
  (fetch_student_submission tg.localState tg.transport tg.remoteHash
    tg.remoteUrl tg.localPath).1

/-- A transport whose clone and pull both succeed at this target. -/
def SyncTarget.transportOk (tg : SyncTarget) : Bool :=
  (match tg.transport.cloneResult with | .ok _ => true | .error _ => false)
    && (match tg.transport.pullResult with | .ok _ => true | .error _ => false)

/-- Embedding of the per-student loop of `fetch_assignment_submissions` in
gkeepclient/fetch_submissions.py: `fetch_student_submission` is invoked
for every target in order, and each invocation records its own outcome
(the reports repository fetched just before the loop is one more target of
exactly the same shape).  Exceptions are caught inside `clone_repo` and
`pull_repo_if_updated`, so the loop body never raises. -/
def fetch_assignment_submissions (targets : List SyncTarget) :
    List SyncOutcome :=
  targets.map SyncTarget.outcome

/-- Python `str.format` positional substitution on a template's character
list: each `{d}` with `d` a digit is replaced by the argument in that
position; substituted arguments are not rescanned. -/
def pyFormatGo (args : List String) : List Char → List Char
  | [] => []
  | [c] => [c]
  | [c, d] => [c, d]
  | c :: d :: e :: rest =>
    if c = '\x7b' ∧ e = '\x7d' ∧ d.isDigit then
      (args.getD (d.toNat - 48) "").data ++ pyFormatGo args rest
    else
      c :: pyFormatGo args (d :: e :: rest)

/-- Python `template.format(*args)` for positional fields. -/
def pyFormat (template : String) (args : List String) : String :=
  ⟨pyFormatGo args template.data⟩

/-- The client configuration fields consumed by `build_clone_url`
(`config.server_username`, `config.server_host`,
`config.server_ssh_port`). -/
structure ClientConfig where
  server_username : String
  server_host : String
  server_ssh_port : Nat
  deriving Repr, DecidableEq

/-- Embedding of `build_clone_url(path)` from
gkeepclient/fetch_submissions.py: format the literal
`ssh://{0}@{1}:{2}/{3}` with the configured username, host, and port and
the server-side repository path. -/
def build_clone_url (config : ClientConfig) (path : String) : String :=
  pyFormat "ssh://{0}@{1}:{2}/{3}"
    [config.server_username, config.server_host,
     toString config.server_ssh_port, path]

/-- The type of one server response (`ServerResponseType` in
gkeepclient/server_response_poller.py, used by
gkeepclient/publish_assignment.py). -/
inductive ServerResponseType : Type where
  | SUCCESS
  | ERROR
  | WARNING
  | TIMEOUT
  deriving Repr, DecidableEq

/-- SUCCESS, ERROR, and TIMEOUT are terminal; WARNING is not. -/
def ServerResponseType.isTerminal : ServerResponseType → Bool
  | .WARNING => false
  | _ => true

/-- One response surfaced to the caller by the poller. -/
structure ServerResponse where
  response_type : ServerResponseType
  message : String
  deriving Repr, DecidableEq

/-- One message of the server's event/log channel as seen by the poller:
its arrival time in time units since the poller started, the operation tag
it belongs to, its response type, and its payload.  Messages are listed in
arrival order. -/
structure TimedMessage where
  arrival : Nat
  tag : String
  response_type : ServerResponseType
  message : String
  deriving Repr, DecidableEq

/-- Modelled from the spec: gkeepclient/server_response_poller.py
(`ServerResponsePoller.response_generator`) is not among the provided
sources, so the poller is modelled from the spec's ResponsePoller state
machine.  Each iteration blocks for the next channel message tagged with
the polled operation tag; if none arrives before the elapsed time exceeds
the timeout, a single synthetic TIMEOUT response is produced and the
poller stops; a WARNING is emitted and polling continues; a SUCCESS or
ERROR is emitted and the poller stops. -/
def response_generator (tag : String) (timeout : Nat) :
    List TimedMessage → List ServerResponse
  | [] => [⟨.TIMEOUT, ""⟩]
  | m :: rest =>
    if m.tag ≠ tag then
      response_generator tag timeout rest
    else if timeout < m.arrival then
      [⟨.TIMEOUT, ""⟩]
    else if m.response_type.isTerminal then
      [⟨m.response_type, m.message⟩]
    else
      ⟨m.response_type, m.message⟩ :: response_generator tag timeout rest

/-- Association lookup in a hash cache's entry list: the most recent entry
for the path, if any. -/
def cacheLookup : List (String × Option String) → String → Option (Option String)
  | [], _ => none
  | (p, h) :: rest, path => if p = path then some h else cacheLookup rest path

/-- Modelled from the spec: the `FetchedHashCache` class (imported by
gkeepgui/class_information.py from gkeepclient.fetch_submissions) is not
among the provided sources.  Per the spec's HashCache contract it is a
process-local map from local repository path to the last observed local
HEAD hash within one run; an unreadable repository is cached as absent. -/
structure FetchedHashCache where
  entries : List (String × Option String)
  deriving Repr, DecidableEq

/-- The cached value for a path, if the path has been observed this run. -/
def FetchedHashCache.lookup (c : FetchedHashCache) (path : String) :
    Option (Option String) :=
  cacheLookup c.entries path

/-- Whether a path already has a cache entry this run. -/
def FetchedHashCache.is_cached (c : FetchedHashCache) (path : String) : Bool :=
  (c.lookup path).isSome

/-- Record an observation for a path. -/
def FetchedHashCache.set_hash (c : FetchedHashCache) (path : String)
    (h : Option String) : FetchedHashCache :=
  ⟨(path, h) :: c.entries⟩

/-- Modelled from the spec: `getOrRead(path)` on the HashCache.  On the
first call for a path within a run it invokes the transport's `headHash`,
caches and returns the value (or caches "unreadable", treated as absent,
if the transport reports the path is not a valid repository); subsequent
calls return the cached value without a transport call.  The result is
the value, the updated cache, and the number of underlying `headHash`
transport calls made by this invocation. -/
def getOrRead (headHash : String → Except GkeepException String)
    (c : FetchedHashCache) (path : String) :
    Option String × FetchedHashCache × Nat :=
  match c.lookup path with
  | some v => (v, c, 0)
  | none =>
    match headHash path with
    | .ok h => (some h, c.set_hash path (some h), 1)
    | .error _ => (none, c.set_hash path none, 1)

/-- A raised Python exception escaping `Submission.is_fetched`:
`attributeError` models the `AttributeError` raised by an attribute access
on `None`, and `gkeep e` a propagated `GkeepException`. -/
inductive PyError : Type where
  | attributeError
  | gkeep (e : GkeepException)
  deriving Repr, DecidableEq

/-- Evaluation of the expression `local_hash.get_hash(path)` for a
`local_hash` that is either `None` or a value with a `get_hash` method:
on `None` the attribute access raises `AttributeError`. -/
def optGetHash : Option String → String → Except PyError String
  | none, _ => .error .attributeError
  | some h, _ => .ok h

/-- Embedding of `Submission.is_fetched` from
gkeepgui/class_information.py.  The state consulted is the submission's
`fetched_path` and `server_hash` attributes, the behaviour of the freshly
constructed `FetchedHashCache(fetched_path)` (whose class body is not
among the provided sources, so its `is_cached` answer is abstracted as a
function of the path), and `git_head_hash` (which may raise a
`GkeepException`, not caught here).  The body mirrors the source line by
line: `local_hash` is initialised to `None`; on the cached branch the
source evaluates `local_hash.get_hash(self.fetched_path)` while
`local_hash` is still `None` and discards the result; on the not-cached
branch `local_hash` is rebound to `git_head_hash(fetched_path)`; finally
`local_hash` is compared with `server_hash`. -/
def is_fetched (fetched_path : Option String) (server_hash : String)
    (is_cached : String → Bool)
    (git_head_hash : String → Except GkeepException String) :
    Except PyError Bool :=
  match fetched_path with
  | none => .ok false
  | some p =>
    let local_hash : Option String := none
    if is_cached p then
      match optGetHash local_hash p with
      | .error e => .error e
      | .ok _ => .ok (decide (local_hash = some server_hash))
    else
      match git_head_hash p with
      | .error e => .error (.gkeep e)
      | .ok h => .ok (decide (h = server_hash))

/-- A faculty member's attributes (`Faculty` in gkeepcore/faculty.py). -/
structure Faculty where
  last_name : String
  first_name : String
  username : String
  email_address : String
  deriving Repr, DecidableEq

/-- A `FacultyError` raised by faculty CSV parsing. -/
structure FacultyError where
  msg : String
  deriving Repr, DecidableEq

/-- Python `str.split` with a one-character separator, on the string's
character list: the fields between occurrences of the separator, in
order; the empty string splits to `[""]`. -/
def pySplitGo (sep : Char) : List Char → List Char → List String
  | [], acc => [⟨acc.reverse⟩]
  | c :: rest, acc =>
    if c = sep then ⟨acc.reverse⟩ :: pySplitGo sep rest []
    else pySplitGo sep rest (c :: acc)

/-- Python `s.split(sep)` for a one-character separator. -/
def pySplit (sep : Char) (s : String) : List String :=
  pySplitGo sep s.data []

/-- Embedding of `Faculty.from_csv_row` from gkeepcore/faculty.py: a row
with other than exactly three fields raises `FacultyError`; otherwise the
email address is split at `@` (Python `str.split`, splitting at every
occurrence) and the two-target unpacking `username, domain = ...` raises
unless the split has exactly two parts, re-raised as `FacultyError`; on
success the username is the part of the email address before the `@`. -/
def Faculty.from_csv_row (csv_row : List String) : Except FacultyError Faculty :=
  match csv_row with
  | [last_name, first_name, email_address] =>
    match pySplit '@' email_address with
    | [username, _domain] =>
      .ok ⟨last_name, first_name, username, email_address⟩
    | _ => .error ⟨"Not a valid email address: " ++ email_address⟩
  | _ => .error ⟨"Not a valid faculty row"⟩

/-! ## Theorems -/

/-- Formatting the clone-URL template is plain concatenation of its four
arguments with the literal separators. -/
theorem pyFormat_ssh (a b c d : String) :
    pyFormat "ssh://{0}@{1}:{2}/{3}" [a, b, c, d] =
      "ssh://" ++ a ++ "@" ++ b ++ ":" ++ c ++ "/" ++ d := by
  have h : "ssh://{0}@{1}:{2}/{3}".data =
      ['s', 's', 'h', ':', '/', '/', '\x7b', '0', '\x7d', '@', '\x7b', '1',
       '\x7d', ':', '\x7b', '2', '\x7d', '/', '\x7b', '3', '\x7d'] := rfl
  apply String.ext
  show pyFormatGo [a, b, c, d] "ssh://{0}@{1}:{2}/{3}".data = _
  rw [h]
  simp [pyFormatGo, String.data_append]

/-- C8: for every username, host, port, and server path, the built clone
URL is exactly `ssh://<username>@<host>:<port>/<path>` with the server
path inserted verbatim; in particular for user `prof`, host
`cs.example.edu`, port `2222`, path `/home/prof/class/hw1` the result is
exactly `ssh://prof@cs.example.edu:2222//home/prof/class/hw1`. -/
theorem build_clone_url_spec :
    (∀ (config : ClientConfig) (path : String),
      build_clone_url config path =
        "ssh://" ++ config.server_username ++ "@" ++ config.server_host
          ++ ":" ++ toString config.server_ssh_port ++ "/" ++ path)
    ∧ build_clone_url ⟨"prof", "cs.example.edu", 2222⟩ "/home/prof/class/hw1"
        = "ssh://prof@cs.example.edu:2222//home/prof/class/hw1" := by
  constructor
  · intro config path
    exact pyFormat_ssh _ _ _ _
  · rfl

/-- C10: `Faculty.from_csv_row` returns a `Faculty` whose username is the
part of the email address before `@` if and only if the row has exactly
three fields and the email address splits into exactly two parts at `@`;
in every other case it raises `FacultyError`. -/
theorem Faculty_from_csv_row_spec :
    ∀ (row : List String),
      ((∃ fac, Faculty.from_csv_row row = Except.ok fac) ↔
        row.length = 3 ∧ (pySplit '@' (row.getD 2 "")).length = 2)
      ∧ (∀ last first email u dmn, row = [last, first, email] →
          pySplit '@' email = [u, dmn] →
            Faculty.from_csv_row row = Except.ok ⟨last, first, u, email⟩)
      ∧ (¬(row.length = 3 ∧ (pySplit '@' (row.getD 2 "")).length = 2) →
          ∃ e, Faculty.from_csv_row row = Except.error e) := by
  intro row
  rcases row with _ | ⟨a, _ | ⟨b, _ | ⟨c, _ | ⟨d, tl⟩⟩⟩⟩
  case nil =>
    refine ⟨by simp [Faculty.from_csv_row], ?_, fun _ => ⟨_, rfl⟩⟩
    intro last first email u dmn hrow
    simp at hrow
  case cons.nil =>
    refine ⟨by simp [Faculty.from_csv_row], ?_, fun _ => ⟨_, rfl⟩⟩
    intro last first email u dmn hrow
    simp at hrow
  case cons.cons.nil =>
    refine ⟨by simp [Faculty.from_csv_row], ?_, fun _ => ⟨_, rfl⟩⟩
    intro last first email u dmn hrow
    simp at hrow
  case cons.cons.cons.nil =>
    refine ⟨?_, ?_, ?_⟩
    · rcases hsp : pySplit '@' c with _ | ⟨u, _ | ⟨dm, _ | ⟨x, tl2⟩⟩⟩ <;>
        simp [Faculty.from_csv_row, hsp, List.getD]
    · intro last first email u dmn hrow hsp
      have ha : a = last := by simp at hrow; tauto
      have hb : b = first := by simp at hrow; tauto
      have hc : c = email := by simp at hrow; tauto
      subst ha; subst hb; subst hc
      simp [Faculty.from_csv_row, hsp]
    · intro hnot
      rcases hsp : pySplit '@' c with _ | ⟨u, _ | ⟨dm, _ | ⟨x, tl2⟩⟩⟩
      · exact ⟨⟨"Not a valid email address: " ++ c⟩,
          by simp [Faculty.from_csv_row, hsp]⟩
      · exact ⟨⟨"Not a valid email address: " ++ c⟩,
          by simp [Faculty.from_csv_row, hsp]⟩
      · exfalso
        refine hnot ⟨rfl, ?_⟩
        show (pySplit '@' c).length = 2
        rw [hsp]
        rfl
      · exact ⟨⟨"Not a valid email address: " ++ c⟩,
          by simp [Faculty.from_csv_row, hsp]⟩
  case cons.cons.cons.cons =>
    refine ⟨by simp [Faculty.from_csv_row], ?_, fun _ => ⟨_, rfl⟩⟩
    intro last first email u dmn hrow
    simp at hrow

/-- C9: for every Submission with a non-None `fetched_path`, if the hash
cache reports the path as cached, `is_fetched` dereferences `local_hash`
while it is still bound to `None` (calling `local_hash.get_hash`), so on
that branch it raises instead of returning a boolean; it returns a
boolean only on the not-cached branch or when `fetched_path` is None. -/
theorem is_fetched_none_deref :
    ∀ (fetched_path : Option String) (server_hash : String)
      (is_cached : String → Bool)
      (git_head_hash : String → Except GkeepException String),
      (∀ p, fetched_path = some p → is_cached p = true →
        is_fetched fetched_path server_hash is_cached git_head_hash =
          Except.error PyError.attributeError)
      ∧ (∀ b, is_fetched fetched_path server_hash is_cached git_head_hash =
            Except.ok b →
          fetched_path = none ∨
            ∃ p, fetched_path = some p ∧ is_cached p = false) := by
  intro fp sh ic ghh
  constructor
  · intro p hfp hic
    subst hfp
    simp [is_fetched, hic, optGetHash]
  · intro b hok
    rcases fp with _ | p
    · exact Or.inl rfl
    · right
      refine ⟨p, rfl, ?_⟩
      cases hic : ic p
      · rfl
      · simp [is_fetched, hic, optGetHash] at hok

/-- Witness for C9 at a concrete submission: with `fetched_path` set and a
cache reporting the path as cached, `is_fetched` raises `AttributeError`. -/
theorem is_fetched_none_deref_witness :
    is_fetched (some "/tmp/hw1/submissions/doe_jane_jdoe") "abc123"
        (fun _ => true) (fun _ => Except.ok "abc123") =
      Except.error PyError.attributeError :=
  (is_fetched_none_deref (some "/tmp/hw1/submissions/doe_jane_jdoe") "abc123"
    (fun _ => true) (fun _ => Except.ok "abc123")).1
    "/tmp/hw1/submissions/doe_jane_jdoe" rfl rfl

/-- C5: for every target whose local path does not exist, the sync
decision is Clone regardless of hash values, and a clone of the remote
URL into the local path is attempted. -/
theorem fetch_student_submission_clone_decision :
    ∀ (s : RepoState) (t : TransportBehavior) (r url path : String),
      s.isDir = false →
      (fetch_student_submission s t r url path).2 =
          [TransportCall.clone url path]
      ∧ ((fetch_student_submission s t r url path).1 = SyncOutcome.cloned ∨
          ∃ e, (fetch_student_submission s t r url path).1 =
            SyncOutcome.cloneFailed e) := by
  intro s t r url path hdir
  rcases t with ⟨cr, pr⟩
  rcases cr with ce | ⟨⟩
  · exact ⟨by simp [fetch_student_submission, hdir, clone_repo],
      Or.inr ⟨ce, by simp [fetch_student_submission, hdir, clone_repo]⟩⟩
  · exact ⟨by simp [fetch_student_submission, hdir, clone_repo],
      Or.inl (by simp [fetch_student_submission, hdir, clone_repo])⟩

/-- Witness for C5 at a concrete absent target: the engine issues exactly
one clone of the remote URL into the local path. -/
theorem fetch_student_submission_clone_decision_witness :
    (fetch_student_submission ⟨false, false, Except.error ⟨"no repo"⟩⟩
        ⟨Except.ok (), Except.ok ()⟩ "abc123" "ssh://u@h:22/x" "/tmp/x").2 =
      [TransportCall.clone "ssh://u@h:22/x" "/tmp/x"]
    ∧ ((fetch_student_submission ⟨false, false, Except.error ⟨"no repo"⟩⟩
          ⟨Except.ok (), Except.ok ()⟩ "abc123" "ssh://u@h:22/x" "/tmp/x").1 =
          SyncOutcome.cloned ∨
        ∃ e, (fetch_student_submission ⟨false, false, Except.error ⟨"no repo"⟩⟩
          ⟨Except.ok (), Except.ok ()⟩ "abc123" "ssh://u@h:22/x" "/tmp/x").1 =
          SyncOutcome.cloneFailed e) :=
  fetch_student_submission_clone_decision ⟨false, false, Except.error ⟨"no repo"⟩⟩
    ⟨Except.ok (), Except.ok ()⟩ "abc123" "ssh://u@h:22/x" "/tmp/x" rfl

/-- Looking up a path just recorded in the cache finds it. -/
theorem cacheLookup_set_hash (c : FetchedHashCache) (path : String)
    (h : Option String) : (c.set_hash path h).lookup path = some h := by
  simp [FetchedHashCache.set_hash, FetchedHashCache.lookup, cacheLookup]

/-- C7: two successive `getOrRead` invocations for the same path within
one run trigger exactly one underlying `headHash` transport call when the
path starts uncached; the second invocation returns the cached value with
zero transport calls and leaves the cache unchanged. -/
theorem getOrRead_single_transport_call :
    ∀ (headHash : String → Except GkeepException String)
      (c : FetchedHashCache) (path : String)
      (v₁ v₂ : Option String) (c₁ c₂ : FetchedHashCache) (n₁ n₂ : Nat),
      getOrRead headHash c path = (v₁, c₁, n₁) →
      getOrRead headHash c₁ path = (v₂, c₂, n₂) →
      n₂ = 0 ∧ v₂ = v₁ ∧ c₂ = c₁ ∧
        (c.is_cached path = false → n₁ + n₂ = 1) := by
  intro hh c path v₁ v₂ c₁ c₂ n₁ n₂ h1 h2
  rcases hl : c.lookup path with _ | v
  · rcases hhh : hh path with hv | he
    · rw [getOrRead, hl, hhh] at h1
      obtain ⟨rfl, rfl, rfl⟩ := Prod.mk.injEq .. ▸ h1
      rw [getOrRead, cacheLookup_set_hash] at h2
      obtain ⟨rfl, rfl, rfl⟩ := Prod.mk.injEq .. ▸ h2
      exact ⟨rfl, rfl, rfl, fun _ => rfl⟩
    · rw [getOrRead, hl, hhh] at h1
      obtain ⟨rfl, rfl, rfl⟩ := Prod.mk.injEq .. ▸ h1
      rw [getOrRead, cacheLookup_set_hash] at h2
      obtain ⟨rfl, rfl, rfl⟩ := Prod.mk.injEq .. ▸ h2
      exact ⟨rfl, rfl, rfl, fun _ => rfl⟩
  · rw [getOrRead, hl] at h1
    obtain ⟨rfl, rfl, rfl⟩ := Prod.mk.injEq .. ▸ h1
    rw [getOrRead, hl] at h2
    obtain ⟨rfl, rfl, rfl⟩ := Prod.mk.injEq .. ▸ h2
    refine ⟨rfl, rfl, rfl, fun hcached => ?_⟩
    rw [FetchedHashCache.is_cached, hl] at hcached
    simp at hcached

/-- Witness for C7: on a fresh cache and a transport returning hash
`deadbeef`, the first `getOrRead` makes one transport call and the second
makes none, returning the cached value. -/
theorem getOrRead_single_transport_call_witness :
    (0 : Nat) = 0 ∧ (some "deadbeef" : Option String) = some "deadbeef"
    ∧ (⟨[("/cls/hw1", some "deadbeef")]⟩ : FetchedHashCache) =
        ⟨[("/cls/hw1", some "deadbeef")]⟩
    ∧ ((⟨[]⟩ : FetchedHashCache).is_cached "/cls/hw1" = false → 1 + 0 = 1) :=
  getOrRead_single_transport_call (fun _ => Except.ok "deadbeef") ⟨[]⟩
    "/cls/hw1" (some "deadbeef") (some "deadbeef")
    ⟨[("/cls/hw1", some "deadbeef")]⟩ ⟨[("/cls/hw1", some "deadbeef")]⟩ 1 0
    rfl rfl

/-- Witness for C10 at a concrete row: a three-field row whose email
splits in two yields a Faculty whose username is the part before `@`. -/
theorem Faculty_from_csv_row_spec_witness :
    Faculty.from_csv_row ["Doe", "Jane", "jdoe@example.com"] =
      Except.ok ⟨"Doe", "Jane", "jdoe", "jdoe@example.com"⟩ :=
  (Faculty_from_csv_row_spec ["Doe", "Jane", "jdoe@example.com"]).2.1
    "Doe" "Jane" "jdoe@example.com" "jdoe" "example.com" rfl (by decide)

/-- C3: for every polling session, the produced sequence ends with its
single terminal response and contains no other terminal response (so
nothing is produced after a terminal one); for a scripted source emitting
WARNING, WARNING, SUCCESS for the polled tag, the produced sequence is
exactly [WARNING, WARNING, SUCCESS]. -/
theorem response_generator_terminal_spec :
    (∀ (tag : String) (timeout : Nat) (msgs : List TimedMessage),
      ∃ ws r, response_generator tag timeout msgs = ws ++ [r]
        ∧ r.response_type.isTerminal = true
        ∧ ws.all (fun w => !w.response_type.isTerminal) = true)
    ∧ response_generator "t" 10
        [⟨0, "t", .WARNING, "w1"⟩, ⟨1, "t", .WARNING, "w2"⟩,
         ⟨2, "t", .SUCCESS, "done"⟩] =
      [⟨.WARNING, "w1"⟩, ⟨.WARNING, "w2"⟩, ⟨.SUCCESS, "done"⟩] := by
  constructor
  · intro tag timeout msgs
    induction msgs with
    | nil => exact ⟨[], ⟨.TIMEOUT, ""⟩, rfl, rfl, rfl⟩
    | cons m rest ih =>
      by_cases htag : m.tag = tag
      · by_cases harr : timeout < m.arrival
        · exact ⟨[], ⟨.TIMEOUT, ""⟩,
            by simp [response_generator, htag, harr], rfl, rfl⟩
        · by_cases hterm : m.response_type.isTerminal = true
          · exact ⟨[], ⟨m.response_type, m.message⟩,
              by simp [response_generator, htag, harr, hterm], hterm, rfl⟩
          · obtain ⟨ws, r, heq, hterm', hall⟩ := ih
            refine ⟨⟨m.response_type, m.message⟩ :: ws, r, ?_, hterm', ?_⟩
            · simp [response_generator, htag, harr, hterm, heq]
            · simp only [List.all_cons, hall, Bool.and_true]
              simp [hterm]
      · obtain ⟨ws, r, heq, hterm', hall⟩ := ih
        exact ⟨ws, r, by simp [response_generator, htag, heq], hterm', hall⟩
  · rfl

/-- C4: for every polling session in which no message tagged with the
polled operation tag arrives within the timeout, the poller produces
exactly the one-element sequence [TIMEOUT]: a normal terminal outcome,
not an exception. -/
theorem response_generator_timeout_spec :
    ∀ (tag : String) (timeout : Nat) (msgs : List TimedMessage),
      (∀ m ∈ msgs, m.tag ≠ tag ∨ timeout < m.arrival) →
      response_generator tag timeout msgs =
        [⟨ServerResponseType.TIMEOUT, ""⟩] := by
  intro tag timeout msgs h
  induction msgs with
  | nil => rfl
  | cons m rest ih =>
    have hrest : ∀ m' ∈ rest, m'.tag ≠ tag ∨ timeout < m'.arrival :=
      fun m' hm' => h m' (List.mem_cons_of_mem _ hm')
    by_cases htag : m.tag = tag
    · rcases h m (List.mem_cons_self _ _) with h1 | h2
      · exact absurd htag h1
      · simp [response_generator, htag, h2]
    · simp only [response_generator, if_pos htag]
      exact ih hrest

/-- Witness for C4: with timeout 1 and a source whose only message for the
tag arrives at time 5, the produced sequence is exactly [TIMEOUT]. -/
theorem response_generator_timeout_spec_witness :
    response_generator "t" 1 [⟨5, "t", .SUCCESS, "late"⟩] =
      [⟨ServerResponseType.TIMEOUT, ""⟩] :=
  response_generator_timeout_spec "t" 1 [⟨5, "t", .SUCCESS, "late"⟩]
    (by decide)

/-- Counterexample to C1 as stated: at a target whose local path exists
but is not a valid repository (and likewise when `git_head_hash` raises),
the code issues no pull and records a skip, contradicting the claim that
the decision is Pull when the local hash is unknown/unreadable. -/
theorem fetch_student_submission_pull_claim_cex :
    (fetch_student_submission ⟨true, false, Except.ok "aaa"⟩
        ⟨Except.ok (), Except.ok ()⟩ "bbb" "ssh://u@h:22/x" "/tmp/x").1 =
      SyncOutcome.notRepo
    ∧ (fetch_student_submission ⟨true, false, Except.ok "aaa"⟩
        ⟨Except.ok (), Except.ok ()⟩ "bbb" "ssh://u@h:22/x" "/tmp/x").2 = []
    ∧ (fetch_student_submission ⟨true, true, Except.error ⟨"bad object"⟩⟩
        ⟨Except.ok (), Except.ok ()⟩ "bbb" "ssh://u@h:22/x" "/tmp/x").1 =
      SyncOutcome.readError ⟨"bad object"⟩
    ∧ (fetch_student_submission ⟨true, true, Except.error ⟨"bad object"⟩⟩
        ⟨Except.ok (), Except.ok ()⟩ "bbb" "ssh://u@h:22/x" "/tmp/x").2 =
      [] :=
  ⟨rfl, rfl, rfl, rfl⟩

/-- C1 (amended): for every target whose local path exists, the sync
decision is NoOp exactly when the path is a valid repository and the
local HEAD hash is readable and equals the remote HEAD hash (no pull
issued); a pull is issued exactly when the path is a valid repository and
the local hash is readable and differs from the remote hash; when the
path is not a valid repository or the local hash is unreadable, no pull
is issued and the target is skipped with an error message. -/
theorem fetch_student_submission_pull_decision :
    ∀ (s : RepoState) (t : TransportBehavior) (r url path : String),
      s.isDir = true →
      ((fetch_student_submission s t r url path).1 = SyncOutcome.noOp ↔
        s.isNonBareRepo = true ∧ s.headHash = Except.ok r)
      ∧ ((fetch_student_submission s t r url path).1 = SyncOutcome.noOp →
          (fetch_student_submission s t r url path).2 = [])
      ∧ ((fetch_student_submission s t r url path).2 =
            [TransportCall.pull path url] ↔
          s.isNonBareRepo = true ∧ ∃ h, s.headHash = Except.ok h ∧ h ≠ r)
      ∧ ((s.isNonBareRepo = false ∨ (∃ e, s.headHash = Except.error e)) →
          (fetch_student_submission s t r url path).2 = []) := by
  intro s t r url path hdir
  rcases s with ⟨isDir, isRepo, hh⟩
  simp only at hdir
  subst hdir
  cases isRepo
  · refine ⟨?_, ?_, ?_, fun _ => ?_⟩ <;>
      simp [fetch_student_submission, pull_repo_if_updated]
  · rcases hh with e | lh
    · refine ⟨?_, ?_, ?_, fun _ => ?_⟩ <;>
        simp [fetch_student_submission, pull_repo_if_updated]
    · by_cases heq : lh = r
      · subst heq
        refine ⟨?_, ?_, ?_, ?_⟩
        · simp [fetch_student_submission, pull_repo_if_updated]
        · intro _
          simp [fetch_student_submission, pull_repo_if_updated]
        · simp [fetch_student_submission, pull_repo_if_updated]
        · rintro (hfalse | ⟨e, hfalse⟩) <;> simp at hfalse
      · rcases t with ⟨cr, pr⟩
        rcases pr with pe | ⟨⟩ <;> refine ⟨?_, ?_, ?_, ?_⟩
        · simp [fetch_student_submission, pull_repo_if_updated, heq]
        · intro hfalse
          simp [fetch_student_submission, pull_repo_if_updated, heq] at hfalse
        · simp [fetch_student_submission, pull_repo_if_updated, heq]
        · rintro (hfalse | ⟨e, hfalse⟩) <;> simp at hfalse
        · simp [fetch_student_submission, pull_repo_if_updated, heq]
        · intro hfalse
          simp [fetch_student_submission, pull_repo_if_updated, heq] at hfalse
        · simp [fetch_student_submission, pull_repo_if_updated, heq]
        · rintro (hfalse | ⟨e, hfalse⟩) <;> simp at hfalse

/-- Witness for C1 (amended) at a concrete existing target whose local
hash differs from the remote hash: a pull is issued and the decision is
not NoOp. -/
theorem fetch_student_submission_pull_decision_witness :
    ((fetch_student_submission ⟨true, true, Except.ok "aaa"⟩
        ⟨Except.ok (), Except.ok ()⟩ "bbb" "ssh://u@h:22/x" "/tmp/x").1 =
          SyncOutcome.noOp ↔
        (⟨true, true, Except.ok "aaa"⟩ : RepoState).isNonBareRepo = true ∧
          (⟨true, true, Except.ok "aaa"⟩ : RepoState).headHash =
            Except.ok "bbb")
    ∧ ((fetch_student_submission ⟨true, true, Except.ok "aaa"⟩
          ⟨Except.ok (), Except.ok ()⟩ "bbb" "ssh://u@h:22/x" "/tmp/x").1 =
            SyncOutcome.noOp →
        (fetch_student_submission ⟨true, true, Except.ok "aaa"⟩
          ⟨Except.ok (), Except.ok ()⟩ "bbb" "ssh://u@h:22/x" "/tmp/x").2 = [])
    ∧ ((fetch_student_submission ⟨true, true, Except.ok "aaa"⟩
          ⟨Except.ok (), Except.ok ()⟩ "bbb" "ssh://u@h:22/x" "/tmp/x").2 =
            [TransportCall.pull "/tmp/x" "ssh://u@h:22/x"] ↔
        (⟨true, true, Except.ok "aaa"⟩ : RepoState).isNonBareRepo = true ∧
          ∃ h, (⟨true, true, Except.ok "aaa"⟩ : RepoState).headHash =
            Except.ok h ∧ h ≠ "bbb")
    ∧ (((⟨true, true, Except.ok "aaa"⟩ : RepoState).isNonBareRepo = false ∨
          (∃ e, (⟨true, true, Except.ok "aaa"⟩ : RepoState).headHash =
            Except.error e)) →
        (fetch_student_submission ⟨true, true, Except.ok "aaa"⟩
          ⟨Except.ok (), Except.ok ()⟩ "bbb" "ssh://u@h:22/x" "/tmp/x").2 =
          []) :=
  fetch_student_submission_pull_decision ⟨true, true, Except.ok "aaa"⟩
    ⟨Except.ok (), Except.ok ()⟩ "bbb" "ssh://u@h:22/x" "/tmp/x" rfl

/-- A target whose transport calls both succeed never records a Failed
outcome, whatever its sync decision. -/
theorem outcome_not_failed_of_transportOk (tg : SyncTarget)
    (hok : tg.transportOk = true) : tg.outcome.isFailed = false := by
  rcases tg with ⟨⟨isDir, isRepo, hh⟩, ⟨cr, pr⟩, r, url, path⟩
  rcases cr with ce | ⟨⟩
  · simp [SyncTarget.transportOk] at hok
  · rcases pr with pe | ⟨⟩
    · simp [SyncTarget.transportOk] at hok
    · cases isDir
      · simp [SyncTarget.outcome, fetch_student_submission, clone_repo,
          SyncOutcome.isFailed]
      · cases isRepo
        · simp [SyncTarget.outcome, fetch_student_submission,
            pull_repo_if_updated, SyncOutcome.isFailed]
        · rcases hh with e | lh
          · simp [SyncTarget.outcome, fetch_student_submission,
              pull_repo_if_updated, SyncOutcome.isFailed]
          · by_cases heq : lh = r <;>
              simp [SyncTarget.outcome, fetch_student_submission,
                pull_repo_if_updated, SyncOutcome.isFailed, heq]

/-- C2: for every batch in which one target's transport call fails with a
transport error and every other target's transport calls succeed, the
engine still produces one outcome per target in order (the error never
propagates out of the batch), exactly one outcome is Failed, and it is
the failing target's outcome at the failing target's position. -/
theorem fetch_assignment_submissions_isolation :
    ∀ (pre post : List SyncTarget) (tg : SyncTarget),
      (∀ tg' ∈ pre, tg'.transportOk = true) →
      (∀ tg' ∈ post, tg'.transportOk = true) →
      tg.outcome.isFailed = true →
      (fetch_assignment_submissions (pre ++ tg :: post)).length =
          pre.length + 1 + post.length
      ∧ (fetch_assignment_submissions (pre ++ tg :: post)).countP
          (fun o => o.isFailed) = 1
      ∧ (fetch_assignment_submissions (pre ++ tg :: post))[pre.length]? =
          some tg.outcome := by
  intro pre post tg hpre hpost hfail
  have hpre0 : (pre.map SyncTarget.outcome).countP (fun o => o.isFailed) = 0 := by
    rw [List.countP_eq_zero]
    intro o ho
    rw [List.mem_map] at ho
    obtain ⟨tg', htg', rfl⟩ := ho
    simp [outcome_not_failed_of_transportOk tg' (hpre tg' htg')]
  have hpost0 : (post.map SyncTarget.outcome).countP (fun o => o.isFailed) = 0 := by
    rw [List.countP_eq_zero]
    intro o ho
    rw [List.mem_map] at ho
    obtain ⟨tg', htg', rfl⟩ := ho
    simp [outcome_not_failed_of_transportOk tg' (hpost tg' htg')]
  refine ⟨?_, ?_, ?_⟩
  · simp [fetch_assignment_submissions]
    omega
  · rw [fetch_assignment_submissions, List.map_append, List.map_cons,
      List.countP_append, List.countP_cons]
    rw [hpre0, hpost0]
    simp [hfail]
  · rw [fetch_assignment_submissions, List.map_append, List.map_cons]
    rw [List.getElem?_append_right (by simp)]
    simp

/-- Witness for C2 at a concrete three-target batch whose middle target
has a failing clone: three outcomes, exactly one Failed, at position 1. -/
theorem fetch_assignment_submissions_isolation_witness :
    (fetch_assignment_submissions
        ([⟨⟨false, false, Except.error ⟨"absent"⟩⟩, ⟨Except.ok (), Except.ok ()⟩,
            "h1", "u1", "p1"⟩] ++
          ⟨⟨false, false, Except.error ⟨"absent"⟩⟩,
            ⟨Except.error ⟨"host unreachable"⟩, Except.ok ()⟩,
            "h2", "u2", "p2"⟩ ::
          [⟨⟨true, true, Except.ok "h3"⟩, ⟨Except.ok (), Except.ok ()⟩,
            "h3", "u3", "p3"⟩])).length = 1 + 1 + 1
    ∧ (fetch_assignment_submissions
        ([⟨⟨false, false, Except.error ⟨"absent"⟩⟩, ⟨Except.ok (), Except.ok ()⟩,
            "h1", "u1", "p1"⟩] ++
          ⟨⟨false, false, Except.error ⟨"absent"⟩⟩,
            ⟨Except.error ⟨"host unreachable"⟩, Except.ok ()⟩,
            "h2", "u2", "p2"⟩ ::
          [⟨⟨true, true, Except.ok "h3"⟩, ⟨Except.ok (), Except.ok ()⟩,
            "h3", "u3", "p3"⟩])).countP (fun o => o.isFailed) = 1
    ∧ (fetch_assignment_submissions
        ([⟨⟨false, false, Except.error ⟨"absent"⟩⟩, ⟨Except.ok (), Except.ok ()⟩,
            "h1", "u1", "p1"⟩] ++
          ⟨⟨false, false, Except.error ⟨"absent"⟩⟩,
            ⟨Except.error ⟨"host unreachable"⟩, Except.ok ()⟩,
            "h2", "u2", "p2"⟩ ::
          [⟨⟨true, true, Except.ok "h3"⟩, ⟨Except.ok (), Except.ok ()⟩,
            "h3", "u3", "p3"⟩]))[(1 : Nat)]? =
        some (SyncTarget.outcome
          ⟨⟨false, false, Except.error ⟨"absent"⟩⟩,
            ⟨Except.error ⟨"host unreachable"⟩, Except.ok ()⟩,
            "h2", "u2", "p2"⟩) :=
  fetch_assignment_submissions_isolation
    [⟨⟨false, false, Except.error ⟨"absent"⟩⟩, ⟨Except.ok (), Except.ok ()⟩,
        "h1", "u1", "p1"⟩]
    [⟨⟨true, true, Except.ok "h3"⟩, ⟨Except.ok (), Except.ok ()⟩,
        "h3", "u3", "p3"⟩]
    ⟨⟨false, false, Except.error ⟨"absent"⟩⟩,
        ⟨Except.error ⟨"host unreachable"⟩, Except.ok ()⟩, "h2", "u2", "p2"⟩
    (by decide) (by decide) (by decide)

/-- C6: with an unchanged remote hash, a second run on the local state
left by the first run yields NoOp with no clone or pull issued for every
target whose first run succeeded (cloned, pulled, or already current); a
target whose first run failed is retried from scratch: a clone is issued
again if the path is still absent (failed clone), a pull again otherwise
(failed pull).  The second run's transport behaviour is arbitrary. -/
theorem runTarget_idempotent :
    ∀ (s : RepoState) (t t' : TransportBehavior) (r url path : String),
      (((runTarget s t r url path).1 = SyncOutcome.noOp ∨
        (runTarget s t r url path).1 = SyncOutcome.cloned ∨
        (runTarget s t r url path).1 = SyncOutcome.pulled) →
        (runTarget (runTarget s t r url path).2.2 t' r url path).1 =
            SyncOutcome.noOp
        ∧ (runTarget (runTarget s t r url path).2.2 t' r url path).2.1 = [])
      ∧ (∀ e, (runTarget s t r url path).1 = SyncOutcome.cloneFailed e →
          (runTarget (runTarget s t r url path).2.2 t' r url path).2.1 =
            [TransportCall.clone url path])
      ∧ (∀ e, (runTarget s t r url path).1 = SyncOutcome.pullFailed e →
          (runTarget (runTarget s t r url path).2.2 t' r url path).2.1 =
            [TransportCall.pull path url]) := by
  intro s t t' r url path
  rcases s with ⟨isDir, isRepo, hh⟩
  rcases t with ⟨cr, pr⟩
  cases isDir
  · -- local path absent: clone branch
    rcases cr with ce | ⟨⟩
    · -- clone fails: state unchanged, still absent, clone reissued
      refine ⟨fun hsucc => ?_, fun e he => ?_, fun e he => ?_⟩
      · rcases hsucc with h | h | h <;>
          simp [runTarget, fetch_student_submission, clone_repo] at h
      · simp [runTarget, fetch_student_submission, clone_repo, applyOutcome]
      · simp [runTarget, fetch_student_submission, clone_repo] at he
    · -- clone succeeds: second run sees a current repository
      refine ⟨fun _ => ?_, fun e he => ?_, fun e he => ?_⟩
      · constructor <;>
          simp [runTarget, fetch_student_submission, clone_repo,
            applyOutcome, pull_repo_if_updated]
      · simp [runTarget, fetch_student_submission, clone_repo] at he
      · simp [runTarget, fetch_student_submission, clone_repo] at he
  · -- local path present: pull branch
    cases isRepo
    · -- not a repository: outcome notRepo, nothing claimed
      refine ⟨fun hsucc => ?_, fun e he => ?_, fun e he => ?_⟩
      · rcases hsucc with h | h | h <;>
          simp [runTarget, fetch_student_submission, pull_repo_if_updated] at h
      · simp [runTarget, fetch_student_submission, pull_repo_if_updated] at he
      · simp [runTarget, fetch_student_submission, pull_repo_if_updated] at he
    · rcases hh with e₀ | lh
      · -- unreadable local hash: outcome readError, nothing claimed
        refine ⟨fun hsucc => ?_, fun e he => ?_, fun e he => ?_⟩
        · rcases hsucc with h | h | h <;>
            simp [runTarget, fetch_student_submission,
              pull_repo_if_updated] at h
        · simp [runTarget, fetch_student_submission,
            pull_repo_if_updated] at he
        · simp [runTarget, fetch_student_submission,
            pull_repo_if_updated] at he
      · by_cases heq : lh = r
        · -- hashes equal: noOp, state unchanged, still noOp
          subst heq
          refine ⟨fun _ => ?_, fun e he => ?_, fun e he => ?_⟩
          · constructor <;>
              simp [runTarget, fetch_student_submission,
                pull_repo_if_updated, applyOutcome]
          · simp [runTarget, fetch_student_submission,
              pull_repo_if_updated] at he
          · simp [runTarget, fetch_student_submission,
              pull_repo_if_updated] at he
        · rcases pr with pe | ⟨⟩
          · -- pull fails: state unchanged, pull reissued
            refine ⟨fun hsucc => ?_, fun e he => ?_, fun e he => ?_⟩
            · rcases hsucc with h | h | h <;>
                simp [runTarget, fetch_student_submission,
                  pull_repo_if_updated, heq] at h
            · simp [runTarget, fetch_student_submission,
                pull_repo_if_updated, heq] at he
            · simp [runTarget, fetch_student_submission,
                pull_repo_if_updated, applyOutcome, heq]
          · -- pull succeeds: second run sees a current repository
            refine ⟨fun _ => ?_, fun e he => ?_, fun e he => ?_⟩
            · constructor <;>
                simp [runTarget, fetch_student_submission,
                  pull_repo_if_updated, applyOutcome, heq]
            · simp [runTarget, fetch_student_submission,
                pull_repo_if_updated, heq] at he
            · simp [runTarget, fetch_student_submission,
                pull_repo_if_updated, heq] at he

/-- Witness for C6 at a concrete absent target whose clone succeeds: the
second run is NoOp and issues no transport call. -/
theorem runTarget_idempotent_witness :
    (runTarget (runTarget ⟨false, false, Except.error ⟨"absent"⟩⟩
        ⟨Except.ok (), Except.ok ()⟩ "h" "u" "p").2.2
      ⟨Except.ok (), Except.ok ()⟩ "h" "u" "p").1 = SyncOutcome.noOp
    ∧ (runTarget (runTarget ⟨false, false, Except.error ⟨"absent"⟩⟩
        ⟨Except.ok (), Except.ok ()⟩ "h" "u" "p").2.2
      ⟨Except.ok (), Except.ok ()⟩ "h" "u" "p").2.1 = [] :=
  (runTarget_idempotent ⟨false, false, Except.error ⟨"absent"⟩⟩
    ⟨Except.ok (), Except.ok ()⟩ ⟨Except.ok (), Except.ok ()⟩
    "h" "u" "p").1 (Or.inr (Or.inl rfl))

end GitKeeper
